import Mathlib

/-!
Verification of the QA_Framework authentication, API-client and page-object
layers against their natural-language specification.

Shallow embedding notes.
Timestamps: the Python code uses time.time() floats only for ordering
comparisons and addition of whole-second intervals; they are modeled as Int.
Network effects: every function of the code that performs exactly one network
exchange is modeled as a pure function taking the outcome of that exchange as
an argument (none = requests.RequestException, which covers transport errors
and, via raise_for_status, HTTP error statuses of the auth endpoints); the Bool
fields fetched / network_called record whether the code path reaching the
result performed that exchange.
The token cache (a Python dict keyed by the pair (tenant_id, email)) is
modeled as an association list with in-place update.
-/
/-- Embeds src/utils/auth.py AuthToken: a dataclass with the five fields
below; expires_at is a Unix timestamp. -/
structure AuthToken where
  access_token : String
  refresh_token : Option String := none
  expires_at : Int := 0
  tenant_id : String := ""
  user_email : String := ""
deriving DecidableEq, Repr
/-- Embeds AuthToken.is_expired: time.time() >= self.expires_at, with the
current time passed explicitly. -/
def AuthToken.is_expired (t : AuthToken) (now : Int) : Bool :=
  decide (now ≥ t.expires_at)
/-- Embeds AuthToken.is_valid: bool(self.access_token) and not self.is_expired()
(Python truthiness of a string is non-emptiness). -/
def AuthToken.is_valid (t : AuthToken) (now : Int) : Bool :=
  !(t.access_token == "") && !(t.is_expired now)
/-- Cache key of AuthManager._token_cache: the pair (tenant_id, email). -/
abbrev CacheKey := String × String
/-- AuthManager._token_cache, a dict keyed by (tenant_id, email), modeled as an
association list without duplicate keys (insertion replaces in place). -/
abbrev TokenCache := List (CacheKey × AuthToken)
/-- Dict membership plus indexing: cache_key in self._token_cache and
self._token_cache[cache_key] combined. -/
def cacheLookup (cache : TokenCache) (k : CacheKey) : Option AuthToken :=
  match cache with
  | [] => none
  | (k2, v) :: rest => if k2 = k then some v else cacheLookup rest k
/-- Dict assignment self._token_cache[cache_key] = token: replaces the binding
in place, or appends when the key is new. -/
def cacheInsert (cache : TokenCache) (k : CacheKey) (v : AuthToken) : TokenCache :=
  match cache with
  | [] => [(k, v)]
  | (k2, v2) :: rest =>
    if k2 = k then (k, v) :: rest else (k2, v2) :: cacheInsert rest k v
/-- One JSON body returned by the auth endpoints (/auth/login and
/auth/refresh): the three fields the code reads with data.get; none means the
field is absent from the body. -/
structure AuthResponse where
  access_token : Option String := none
  refresh_token : Option String := none
  expires_in : Option Int := none
deriving DecidableEq, Repr
/-- AuthManager.EXPIRY_BUFFER_SECONDS = 300 (refresh 5 minutes before expiry). -/
def EXPIRY_BUFFER_SECONDS : Int := 300
/-- Embeds AuthManager._request_token: on a successful exchange (net = some
data) a token is built from the response body with expires_at = now +
data.get("expires_in", 3600); on any requests.RequestException (net = none) no
exception escapes and the deterministic dummy token is returned instead. -/
def AuthManager.request_token (tenant_id email : String) (now : Int)
    (net : Option AuthResponse) : AuthToken :=
  match net with
  | some data =>
    { access_token := data.access_token.getD ""
      refresh_token := data.refresh_token
      expires_at := now + data.expires_in.getD 3600
      tenant_id := tenant_id
      user_email := email }
  | none =>
    { access_token := "dummy_token_" ++ tenant_id ++ "_" ++ email
      refresh_token := none
      expires_at := now + 3600
      tenant_id := tenant_id
      user_email := email }
/-- Result of one AuthManager.get_token call: the returned token, the token
cache afterwards, and whether the call went through _request_token (the only
place a network request is made on this path). -/
structure GetTokenResult where
  token : AuthToken
  cache : TokenCache
  fetched : Bool
deriving DecidableEq, Repr
/-- Embeds AuthManager.get_token: when force_refresh is false and the cache
holds a token for (tenant_id, email) that is_valid() and whose expires_at is
more than EXPIRY_BUFFER_SECONDS away, the cached token is returned with no
network request; every other path calls _request_token and overwrites the
cache entry. The password argument is only forwarded to the auth endpoint,
whose outcome is the net argument. -/
def AuthManager.get_token (cache : TokenCache) (tenant_id email password : String)
    (now : Int) (net : Option AuthResponse) (force_refresh : Bool) : GetTokenResult :=
  let cache_key := (tenant_id, email)
  let hit : Option AuthToken :=
    if force_refresh then none
    else
      match cacheLookup cache cache_key with
      | some cached_token =>
        if cached_token.is_valid now then
          if now < cached_token.expires_at - EXPIRY_BUFFER_SECONDS then
            some cached_token
          else none
        else none
      | none => none
  match hit with
  | some cached_token => ⟨cached_token, cache, false⟩
  | none =>
    let token := AuthManager.request_token tenant_id email now net
    ⟨token, cacheInsert cache cache_key token, true⟩
/-- AuthManager.clear_cache: self._token_cache.clear(). -/
def AuthManager.clear_cache (_cache : TokenCache) : TokenCache := []
/-- What a refresh_token call produces: either a raised ValueError (with its
message) or a returned token. -/
inductive RefreshOutcome where
  | raised (msg : String)
  | returned (t : AuthToken)
deriving DecidableEq, Repr
/-- Result of one AuthManager.refresh_token call: outcome, the cache
afterwards, and whether the refresh endpoint was contacted. -/
structure RefreshResult where
  result : RefreshOutcome
  cache : TokenCache
  network_called : Bool
deriving DecidableEq, Repr
/-- Python truthiness of the optional refresh_token field: None and the empty
string are falsy. -/
def pyTruthyStr : Option String → Bool
  | none => false
  | some s => !(s == "")
/-- Embeds AuthManager.refresh_token: raises ValueError when
token.refresh_token is falsy (before any network call, cache untouched);
otherwise performs the refresh exchange. On success (net = some data) the new
token keeps data.get("refresh_token", token.refresh_token), the cache entry
for (tenant_id, user_email) is overwritten and the new token returned; on a
RequestException (net = none) the old token is returned and the cache is left
unchanged. -/
def AuthManager.refresh_token (cache : TokenCache) (token : AuthToken) (now : Int)
    (net : Option AuthResponse) : RefreshResult :=
  if pyTruthyStr token.refresh_token = false then
    ⟨RefreshOutcome.raised "No refresh token available", cache, false⟩
  else
    match net with
    | some data =>
      let new_token : AuthToken :=
        { access_token := data.access_token.getD ""
          refresh_token :=
            match data.refresh_token with
            | some s => some s
            | none => token.refresh_token
          expires_at := now + data.expires_in.getD 3600
          tenant_id := token.tenant_id
          user_email := token.user_email }
      let cache_key := (token.tenant_id, token.user_email)
      ⟨RefreshOutcome.returned new_token, cacheInsert cache cache_key new_token, true⟩
    | none => ⟨RefreshOutcome.returned token, cache, true⟩
/-- The header dict src/utils/api_client.py APIClient.__init__ builds: exactly
the keys Authorization, X-Tenant-ID and Content-Type. -/
structure HeaderSet where
  authorization : String
  x_tenant_id : String
  content_type : String
deriving DecidableEq, Repr
/-- Session state of APIClient: {base_url, tenant_id, headers}. -/
structure APIClient where
  base_url : String
  tenant_id : String
  headers : HeaderSet
deriving DecidableEq, Repr
/-- Python str.rstrip("/"): drop every trailing slash. -/
def rstripSlash (s : String) : String :=
  String.mk ((s.data.reverse.dropWhile (fun ch => ch = Char.ofNat 47)).reverse)
/-- Embeds APIClient.__init__ (the session state part): base_url with
trailing slashes removed, the tenant, and the three headers. -/
def APIClient.init (base_url token tenant_id : String) : APIClient :=
  { base_url := rstripSlash base_url
    tenant_id := tenant_id
    headers :=
      { authorization := "Bearer " ++ token
        x_tenant_id := tenant_id
        content_type := "application/json" } }
/-- Embeds APIClient.set_token: self.headers["Authorization"] = f"Bearer {token}". -/
def APIClient.set_token (c : APIClient) (token : String) : APIClient :=
  { c with headers := { c.headers with authorization := "Bearer " ++ token } }
/-- Embeds APIClient.set_tenant: self.tenant_id = tenant_id and
self.headers["X-Tenant-ID"] = tenant_id. -/
def APIClient.set_tenant (c : APIClient) (tenant_id : String) : APIClient :=
  { c with tenant_id := tenant_id
           headers := { c.headers with x_tenant_id := tenant_id } }
/-- Bool check that needle is an initial segment of haystack (character by
character, as Python substring search compares). -/
def beginsWith : List Char → List Char → Bool
  | [], _ => true
  | _ :: _, [] => false
  | a :: as, b :: bs => if a = b then beginsWith as bs else false
/-- Embeds the Python operator needle in haystack on strings (substring
containment over the character lists). -/
def containsSub (needle : List Char) : List Char → Bool
  | [] => needle.isEmpty
  | b :: rest => beginsWith needle (b :: rest) || containsSub needle rest
/-- Embeds src/pages/dashboard_page.py DashboardPage.verify_no_cross_tenant_data:
the cards argument lists the text_content() of every currently rendered
.project-card locator (none when Playwright reports no text, read as "" by
the code); the loop returns False as soon as one text contains the excluded
tenant marker, and True after scanning them all. -/
def DashboardPage.verify_no_cross_tenant_data :
    List (Option String) → String → Bool
  | [], _ => true
  | card :: rest, excluded_tenant =>
    let text := card.getD ""
    if containsSub excluded_tenant.data text.data then false
    else DashboardPage.verify_no_cross_tenant_data rest excluded_tenant
/-- HTTP request methods used by APIClient (requests.Session verbs). -/
inductive HttpMethod where
  | GET
  | HEAD
  | POST
  | PUT
  | DELETE
  | OPTIONS
  | TRACE
deriving DecidableEq, Repr
/-- Outcome of one attempt at the wire: an HTTP response with a status code,
or a transport-level connection error. -/
inductive AttemptOutcome where
  | status (code : Nat)
  | connectError
deriving DecidableEq, Repr
/-- What the requests/urllib3 layer hands back to APIClient after the retry
machinery finishes: the last response, or a raised MaxRetryError. -/
inductive RequestResult where
  | response (code : Nat)
  | maxRetryError
deriving DecidableEq, Repr
/-- The status_forcelist APIClient.__init__ passes to urllib3.util.retry.Retry. -/
def status_forcelist : List Nat := [429, 500, 502, 503, 504]
/-- Retry(total=3, ...) in APIClient.__init__: the number of retries urllib3
allows after the initial attempt. -/
def RETRY_TOTAL : Nat := 3
/-- backoff_factor=1 in APIClient.__init__. -/
def backoff_factor : Nat := 1
/-- urllib3 Retry.BACKOFF_MAX, the cap on one backoff sleep. -/
def BACKOFF_MAX : Nat := 120
/-- urllib3 Retry.get_backoff_time for the configured backoff_factor: 0 while
at most one consecutive error is in the history, else
backoff_factor * 2 ^ (consecutive_errors - 1) capped at BACKOFF_MAX. -/
def get_backoff_time (consecutive_errors : Nat) : Nat :=
  if consecutive_errors ≤ 1 then 0
  else min BACKOFF_MAX (backoff_factor * 2 ^ (consecutive_errors - 1))
/-- urllib3 Retry.DEFAULT_ALLOWED_METHODS: the methods whose responses may be
retried on a forcelist status (POST is deliberately not among them). -/
def DEFAULT_ALLOWED_METHODS : List HttpMethod :=
  [HttpMethod.DELETE, HttpMethod.GET, HttpMethod.HEAD, HttpMethod.OPTIONS,
   HttpMethod.PUT, HttpMethod.TRACE]
/-- urllib3 Retry._is_method_retryable for the configured Retry (allowed
methods left at their default). -/
def isMethodRetryable (m : HttpMethod) : Bool :=
  decide (m ∈ DEFAULT_ALLOWED_METHODS)
/-- urllib3 Retry.is_retry for the configured Retry: a response status
triggers a retry iff the method is allowed and the status is in the
forcelist. -/
def is_retry (m : HttpMethod) (code : Nat) : Bool :=
  isMethodRetryable m && decide (code ∈ status_forcelist)
/-- Whether one attempt outcome makes urllib3 try again: forcelist statuses
per is_retry, and connection errors always (connect errors are not
method-gated and Retry(connect=None) falls back to total). -/
def outcomeRetryable (m : HttpMethod) : AttemptOutcome → Bool
  | AttemptOutcome.status code => is_retry m code
  | AttemptOutcome.connectError => true
/-- Trace of one logical request through the retry machinery: how many
attempts were made, the backoff sleeps taken between them (in order), and the
final result. -/
structure RunResult where
  attempts : Nat
  sleeps : List Nat
  result : RequestResult
deriving DecidableEq, Repr
/-- The retry loop of urllib3 HTTPConnectionPool.urlopen under the Retry
object APIClient.__init__ configures, for one logical request: total is the
retry budget left, attempt the 1-based index of the attempt about to be made
(responder gives each attempt's outcome; attempt - 1 errors are in the
history when attempt is made, so the sleep taken before retrying attempt k+1
is get_backoff_time k). A retryable outcome with no budget left raises
MaxRetryError (raise_on_status is the default True); a response whose status
does not trigger a retry is returned as-is. -/
def urlopenRetry (responder : Nat → AttemptOutcome) (m : HttpMethod) :
    Nat → Nat → RunResult
  | 0, attempt =>
    match responder attempt with
    | AttemptOutcome.status code =>
      if is_retry m code then ⟨attempt, [], RequestResult.maxRetryError⟩
      else ⟨attempt, [], RequestResult.response code⟩
    | AttemptOutcome.connectError => ⟨attempt, [], RequestResult.maxRetryError⟩
  | total + 1, attempt =>
    match responder attempt with
    | AttemptOutcome.status code =>
      if is_retry m code then
        let rest := urlopenRetry responder m total (attempt + 1)
        ⟨rest.attempts, get_backoff_time attempt :: rest.sleeps, rest.result⟩
      else ⟨attempt, [], RequestResult.response code⟩
    | AttemptOutcome.connectError =>
      let rest := urlopenRetry responder m total (attempt + 1)
      ⟨rest.attempts, get_backoff_time attempt :: rest.sleeps, rest.result⟩
/-- One request issued through the session APIClient.__init__ mounted (Retry
total=3, backoff_factor=1, status_forcelist as above): the number of attempts
actually made, the backoff sleeps taken between them, and the final result. -/
def APIClient.session_request (m : HttpMethod) (responder : Nat → AttemptOutcome) :
    RunResult :=
  urlopenRetry responder m RETRY_TOTAL 1

lemma cacheLookup_cacheInsert (cache : TokenCache) (k : CacheKey) (v : AuthToken) :
    cacheLookup (cacheInsert cache k v) k = some v := by
  induction cache with
  | nil => simp [cacheInsert, cacheLookup]
  | cons p rest ih =>
    obtain ⟨k2, v2⟩ := p
    by_cases h : k2 = k
    · simp [cacheInsert, cacheLookup, h]
    · simp [cacheInsert, cacheLookup, h, ih]
/-- After any get_token call, the cache maps (tenant_id, email) to the very
token the call returned (a hit returns the stored entry; a fetch stores what it
returns). -/
lemma get_token_cache_lookup (cache : TokenCache) (tenant_id email password : String)
    (now : Int) (net : Option AuthResponse) (force_refresh : Bool) :
    cacheLookup (AuthManager.get_token cache tenant_id email password now net force_refresh).cache
        (tenant_id, email)
      = some (AuthManager.get_token cache tenant_id email password now net force_refresh).token := by
  unfold AuthManager.get_token
  by_cases hf : force_refresh
  · simp [hf, cacheLookup_cacheInsert]
  · simp only [hf, if_false, Bool.false_eq_true]
    cases hlk : cacheLookup cache (tenant_id, email) with
    | none => simp [hlk, cacheLookup_cacheInsert]
    | some ct =>
      by_cases hv : ct.is_valid now
      · by_cases hb : now < ct.expires_at - EXPIRY_BUFFER_SECONDS
        · simp [hlk, hv, hb]
        · simp [hlk, hv, hb, cacheLookup_cacheInsert]
      · simp [hlk, hv, cacheLookup_cacheInsert]

lemma beginsWith_iff (needle : List Char) :
    ∀ haystack, beginsWith needle haystack = true ↔ ∃ r, haystack = needle ++ r := by
  induction needle with
  | nil => intro haystack; simp [beginsWith]
  | cons a as ih =>
    intro haystack
    cases haystack with
    | nil => simp [beginsWith]
    | cons b bs =>
      by_cases hab : a = b
      · subst hab
        simp [beginsWith, ih bs]
      · constructor
        · intro h
          simp [beginsWith, if_neg hab] at h
        · rintro ⟨r, hr⟩
          injection hr with h1 h2
          exact absurd h1.symm hab

lemma containsSub_iff (needle : List Char) :
    ∀ haystack, containsSub needle haystack = true ↔ ∃ l r, haystack = l ++ needle ++ r := by
  intro haystack
  induction haystack with
  | nil =>
    simp only [containsSub, List.isEmpty_iff]
    constructor
    · rintro rfl
      exact ⟨[], [], rfl⟩
    · rintro ⟨l, r, h⟩
      rcases List.append_eq_nil.mp h.symm with ⟨h1, -⟩
      exact (List.append_eq_nil.mp h1).2
  | cons b bs ih =>
    simp only [containsSub, Bool.or_eq_true, beginsWith_iff, ih]
    constructor
    · rintro (⟨r, hr⟩ | ⟨l, r, hlr⟩)
      · exact ⟨[], r, hr⟩
      · exact ⟨b :: l, r, by rw [hlr]; rfl⟩
    · rintro ⟨l, r, hlr⟩
      cases l with
      | nil => exact Or.inl ⟨r, hlr⟩
      | cons x xs =>
        right
        injection hlr with h1 h2
        exact ⟨xs, r, h2⟩

lemma range_map_shift {α : Type} (f : Nat → α) (n : Nat) :
    (List.range (n + 1)).map f = f 0 :: (List.range n).map (fun i => f (i + 1)) := by
  rw [List.range_succ_eq_map, List.map_cons, List.map_map]
  rfl
/-- Everything the retry loop guarantees, for any remaining budget and attempt
index: the final attempt count is between the current attempt and attempt +
budget; the sleeps taken are exactly the backoff values of the consecutive
error counts; every attempt before the last had a retryable outcome; and a
returned response carries the status of the final attempt, which did not
trigger a retry. -/
lemma urlopenRetry_spec (responder : Nat → AttemptOutcome) (m : HttpMethod) :
    ∀ (total attempt : Nat),
      attempt ≤ (urlopenRetry responder m total attempt).attempts ∧
      (urlopenRetry responder m total attempt).attempts ≤ attempt + total ∧
      (urlopenRetry responder m total attempt).sleeps =
        (List.range ((urlopenRetry responder m total attempt).attempts - attempt)).map
          (fun i => get_backoff_time (attempt + i)) ∧
      (∀ k, attempt ≤ k → k < (urlopenRetry responder m total attempt).attempts →
         outcomeRetryable m (responder k) = true) ∧
      (∀ code, (urlopenRetry responder m total attempt).result = RequestResult.response code →
         responder ((urlopenRetry responder m total attempt).attempts) = AttemptOutcome.status code ∧
         is_retry m code = false) := by
  intro total
  induction total with
  | zero =>
    intro attempt
    cases ho : responder attempt with
    | status code =>
      by_cases hr : is_retry m code = true
      · simp [urlopenRetry, ho, hr]
        omega
      · simp only [urlopenRetry, ho]
        rw [if_neg hr]
        dsimp only
        have hrf : is_retry m code = false := by
          cases hb : is_retry m code
          · rfl
          · exact absurd hb hr
        refine ⟨Nat.le_refl _, by omega, by simp, ?_, ?_⟩
        · intro k hk1 hk2
          omega
        · intro code2 hc2
          injection hc2 with hcc
          subst hcc
          exact ⟨ho, hrf⟩
    | connectError =>
      simp [urlopenRetry, ho]
      omega
  | succ t ih =>
    intro attempt
    cases ho : responder attempt with
    | status code =>
      by_cases hr : is_retry m code = true
      · have ihr := ih (attempt + 1)
        obtain ⟨h1, h2, h3, h4, h5⟩ := ihr
        simp only [urlopenRetry, ho, hr, if_pos]
        refine ⟨by omega, by omega, ?_, ?_, ?_⟩
        · have hsplit : (urlopenRetry responder m t (attempt + 1)).attempts - attempt
              = ((urlopenRetry responder m t (attempt + 1)).attempts - (attempt + 1)) + 1 := by
            omega
          rw [hsplit, range_map_shift, h3]
          refine congrArg₂ _ (by simp) ?_
          have hfun : (fun i => get_backoff_time (attempt + (i + 1)))
              = (fun i => get_backoff_time (attempt + 1 + i)) := by
            funext i
            congr 1
            omega
          rw [hfun]
        · intro k hk1 hk2
          rcases Nat.eq_or_lt_of_le hk1 with rfl | hlt
          · simp [outcomeRetryable, ho, hr]
          · exact h4 k (by omega) hk2
        · exact h5
      · simp only [urlopenRetry, ho]
        rw [if_neg hr]
        dsimp only
        have hrf : is_retry m code = false := by
          cases hb : is_retry m code
          · rfl
          · exact absurd hb hr
        refine ⟨Nat.le_refl _, by omega, by simp, ?_, ?_⟩
        · intro k hk1 hk2
          omega
        · intro code2 hc2
          injection hc2 with hcc
          subst hcc
          exact ⟨ho, hrf⟩
    | connectError =>
      have ihr := ih (attempt + 1)
      obtain ⟨h1, h2, h3, h4, h5⟩ := ihr
      simp only [urlopenRetry, ho]
      refine ⟨by omega, by omega, ?_, ?_, ?_⟩
      · have hsplit : (urlopenRetry responder m t (attempt + 1)).attempts - attempt
            = ((urlopenRetry responder m t (attempt + 1)).attempts - (attempt + 1)) + 1 := by
          omega
        rw [hsplit, range_map_shift, h3]
        refine congrArg₂ _ (by simp) ?_
        have hfun : (fun i => get_backoff_time (attempt + (i + 1)))
            = (fun i => get_backoff_time (attempt + 1 + i)) := by
          funext i
          congr 1
          omega
        rw [hfun]
      · intro k hk1 hk2
        rcases Nat.eq_or_lt_of_le hk1 with rfl | hlt
        · simp [outcomeRetryable, ho]
        · exact h4 k (by omega) hk2
      · exact h5
/-- C1 (amended): if after a first get_token call (force_refresh = false) the
token it returned has a non-empty access_token and the second call happens
while more than EXPIRY_BUFFER_SECONDS remain before its expires_at, then the
second call returns the identical token, performs no network request and
leaves the cache unchanged; moreover the cache-hit branch (force_refresh
false, entry present, valid, outside the buffer) is the only path of
get_token that avoids the network. -/
theorem C1_second_call_cache_hit_amended (cache : TokenCache)
    (tenant_id email password : String) (now now2 : Int)
    (net1 net2 : Option AuthResponse)
    (hv : ¬ (AuthManager.get_token cache tenant_id email password now net1 false).token.access_token = "")
    (hb : now2 < (AuthManager.get_token cache tenant_id email password now net1 false).token.expires_at
            - EXPIRY_BUFFER_SECONDS) :
    (AuthManager.get_token
        (AuthManager.get_token cache tenant_id email password now net1 false).cache
        tenant_id email password now2 net2 false)
      = ⟨(AuthManager.get_token cache tenant_id email password now net1 false).token,
         (AuthManager.get_token cache tenant_id email password now net1 false).cache,
         false⟩ ∧
    (∀ (c : TokenCache) (tid em pw : String) (n : Int) (net : Option AuthResponse) (fr : Bool),
       (AuthManager.get_token c tid em pw n net fr).fetched = false ↔
         (fr = false ∧ ∃ ct, cacheLookup c (tid, em) = some ct ∧
            ct.is_valid n = true ∧ n < ct.expires_at - EXPIRY_BUFFER_SECONDS)) := by
  constructor
  · have hlk := get_token_cache_lookup cache tenant_id email password now net1 false
    set r1 := AuthManager.get_token cache tenant_id email password now net1 false with hr1
    have hvld : r1.token.is_valid now2 = true := by
      simp only [AuthToken.is_valid, AuthToken.is_expired, Bool.and_eq_true,
        Bool.not_eq_true', beq_eq_false_iff_ne, ne_eq, decide_eq_false_iff_not, not_le]
      refine ⟨hv, ?_⟩
      have : (0 : Int) < EXPIRY_BUFFER_SECONDS := by decide
      omega
    conv_lhs => rw [AuthManager.get_token]
    simp [hlk, hvld, hb]
  · intro c tid em pw n net fr
    unfold AuthManager.get_token
    cases fr with
    | true => simp
    | false =>
      cases hlk2 : cacheLookup c (tid, em) with
      | none => simp [hlk2]
      | some ct =>
        by_cases hv2 : ct.is_valid n = true
        · by_cases hb2 : n < ct.expires_at - EXPIRY_BUFFER_SECONDS
          · simp [hlk2, hv2, hb2]
          · simp [hlk2, hv2, hb2]
        · simp [hlk2, hv2]
/-- C1 (counterexample to the claim as stated): a first call that stores a
token whose expires_at (7200) lies more than 300s in the future but whose
access_token is empty (the login response carried no access_token field); the
second call in succession still fetches and returns a different token. -/
theorem C1_counterexample_empty_access_token :
    (AuthManager.get_token [] ("acme") ("alice@acme.test") ("pw") 0
        (some { expires_in := some 7200 }) false).fetched = true ∧
    cacheLookup (AuthManager.get_token [] ("acme") ("alice@acme.test") ("pw") 0
        (some { expires_in := some 7200 }) false).cache (("acme"), ("alice@acme.test"))
      = some { access_token := "", expires_at := 7200, tenant_id := "acme"
               user_email := "alice@acme.test" } ∧
    ((0 : Int) < 7200 - EXPIRY_BUFFER_SECONDS) ∧
    (AuthManager.get_token
        (AuthManager.get_token [] ("acme") ("alice@acme.test") ("pw") 0
          (some { expires_in := some 7200 }) false).cache
        ("acme") ("alice@acme.test") ("pw") 0 none false).fetched = true ∧
    ¬ (AuthManager.get_token
        (AuthManager.get_token [] ("acme") ("alice@acme.test") ("pw") 0
          (some { expires_in := some 7200 }) false).cache
        ("acme") ("alice@acme.test") ("pw") 0 none false).token
      = (AuthManager.get_token [] ("acme") ("alice@acme.test") ("pw") 0
          (some { expires_in := some 7200 }) false).token := by
  decide
/-- C1 witness: the amended theorem applied at a concrete run (empty initial
cache, login response with access_token "tok" and expires_in 3600, second
call one second later). -/
theorem C1_witness :
    (AuthManager.get_token
        (AuthManager.get_token [] ("acme") ("a") ("p") 0
          (some { access_token := some ("tok"), expires_in := some 3600 }) false).cache
        ("acme") ("a") ("p") 1 none false)
      = ⟨(AuthManager.get_token [] ("acme") ("a") ("p") 0
            (some { access_token := some ("tok"), expires_in := some 3600 }) false).token,
         (AuthManager.get_token [] ("acme") ("a") ("p") 0
            (some { access_token := some ("tok"), expires_in := some 3600 }) false).cache,
         false⟩ ∧
    (∀ (c : TokenCache) (tid em pw : String) (n : Int) (net : Option AuthResponse) (fr : Bool),
       (AuthManager.get_token c tid em pw n net fr).fetched = false ↔
         (fr = false ∧ ∃ ct, cacheLookup c (tid, em) = some ct ∧
            ct.is_valid n = true ∧ n < ct.expires_at - EXPIRY_BUFFER_SECONDS)) :=
  C1_second_call_cache_hit_amended [] ("acme") ("a") ("p") 0 1
    (some { access_token := some ("tok"), expires_in := some 3600 }) none
    (by decide) (by decide)
/-- C2 (amended): a request is attempted at most 4 times (1 initial + up to 3
retries, Retry total=3); the backoff sleeps before the 2nd, 3rd and 4th
attempts follow backoff_factor=1, i.e. 0s, 2s, 4s; every attempt before the
last had a retryable outcome, so a retry is triggered only by a forcelist
status {429,500,502,503,504} on a method urllib3 status-retries by default,
or by a connection error; any other status is handed back from the very first
attempt with no retry and no sleep (in particular 400, 401, 403, 404). -/
theorem C2_retry_policy_amended (m : HttpMethod) (responder : Nat → AttemptOutcome) :
    (APIClient.session_request m responder).attempts ≤ 4 ∧
    (APIClient.session_request m responder).sleeps =
      (List.range ((APIClient.session_request m responder).attempts - 1)).map
        (fun i => get_backoff_time (1 + i)) ∧
    (∀ k, 1 ≤ k → k < (APIClient.session_request m responder).attempts →
       outcomeRetryable m (responder k) = true) ∧
    (∀ code, (APIClient.session_request m responder).result = RequestResult.response code →
       responder ((APIClient.session_request m responder).attempts) = AttemptOutcome.status code ∧
       is_retry m code = false) ∧
    (∀ code, is_retry m code = false →
       APIClient.session_request m (fun _ => AttemptOutcome.status code)
         = ⟨1, [], RequestResult.response code⟩) ∧
    (∀ code, code ∈ [400, 401, 403, 404] →
       APIClient.session_request m (fun _ => AttemptOutcome.status code)
         = ⟨1, [], RequestResult.response code⟩) := by
  obtain ⟨h1, h2, h3, h4, h5⟩ := urlopenRetry_spec responder m RETRY_TOTAL 1
  have hfirst : ∀ code, is_retry m code = false →
      APIClient.session_request m (fun _ => AttemptOutcome.status code)
        = ⟨1, [], RequestResult.response code⟩ := by
    intro code hcode
    show urlopenRetry (fun _ => AttemptOutcome.status code) m RETRY_TOTAL 1 = _
    rw [show RETRY_TOTAL = 2 + 1 from rfl]
    simp only [urlopenRetry]
    rw [if_neg (by rw [hcode]; exact Bool.false_ne_true)]
  refine ⟨?_, h3, h4, h5, hfirst, ?_⟩
  · have hh := h2
    rw [show (1 : Nat) + RETRY_TOTAL = 4 from rfl] at hh
    exact hh
  · intro code hcode
    refine hfirst code ?_
    simp only [List.mem_cons, List.not_mem_nil, or_false] at hcode
    rcases hcode with rfl | rfl | rfl | rfl
    · simp [is_retry, status_forcelist]
    · simp [is_retry, status_forcelist]
    · simp [is_retry, status_forcelist]
    · simp [is_retry, status_forcelist]
/-- C2 (counterexample to the claim as stated): a GET that keeps answering
503 is attempted 4 times in total (urllib3 Retry(total=3) allows 3 retries
after the initial attempt, not 3 total attempts), and the backoff sleeps are
0s, 2s, 4s (no sleep before the first retry with backoff_factor=1), not the
claimed 1s/2s/4s progression. -/
theorem C2_counterexample_four_attempts :
    (APIClient.session_request HttpMethod.GET
        (fun _ => AttemptOutcome.status 503)).attempts = 4 ∧
    ¬ (APIClient.session_request HttpMethod.GET
        (fun _ => AttemptOutcome.status 503)).attempts ≤ 3 ∧
    (APIClient.session_request HttpMethod.GET
        (fun _ => AttemptOutcome.status 503)).sleeps = [0, 2, 4] ∧
    ¬ (APIClient.session_request HttpMethod.GET
        (fun _ => AttemptOutcome.status 503)).sleeps = [1, 2, 4] ∧
    (APIClient.session_request HttpMethod.GET
        (fun _ => AttemptOutcome.status 503)).result = RequestResult.maxRetryError := by
  decide
/-- C3: on any network/transport failure (net = none) _request_token does not
raise (it is total and returns on that branch) and yields the deterministic
placeholder token dummy_token_<tenant>_<email>, expiring one hour from now,
with tenant_id and user_email equal to the request arguments. -/
theorem C3_request_token_network_failure_returns_dummy (tenant_id email : String) (now : Int) :
    AuthManager.request_token tenant_id email now none
      = { access_token := "dummy_token_" ++ tenant_id ++ "_" ++ email
          refresh_token := none
          expires_at := now + 3600
          tenant_id := tenant_id
          user_email := email } := rfl
/-- C4: is_valid is true iff access_token is non-empty and now is strictly
before expires_at; hence a past expires_at is invalid, the exact boundary
now = expires_at is expired, and a non-empty token expiring in one hour is
valid. -/
theorem C4_is_valid_characterization (t : AuthToken) (now : Int) :
    (t.is_valid now = true ↔ (¬ t.access_token = "" ∧ now < t.expires_at)) ∧
    AuthToken.is_valid { t with expires_at := now } now = false ∧
    AuthToken.is_valid { t with expires_at := now - 1 } now = false ∧
    AuthToken.is_valid { t with access_token := "x", expires_at := now + 3600 } now = true := by
  refine ⟨?_, ?_, ?_, ?_⟩ <;> simp [AuthToken.is_valid, AuthToken.is_expired]
/-- C5: refresh_token on a token without a refresh_token raises the ValueError
"No refresh token available" with no network call and the cache untouched
(whether or not the endpoint would have answered); with a refresh_token
present, a successful call stores the new token under (tenant_id, user_email)
and returns it, while a network-level failure returns the original token
unchanged, propagates nothing, and leaves the cache unchanged. -/
theorem C5_refresh_token_policy (cache : TokenCache) (t : AuthToken) (now : Int)
    (rt : String) (hrt : ¬ rt = "") (data : AuthResponse) :
    let nt : AuthToken :=
      { access_token := data.access_token.getD ""
        refresh_token :=
          match data.refresh_token with
          | some s => some s
          | none => some rt
        expires_at := now + data.expires_in.getD 3600
        tenant_id := t.tenant_id
        user_email := t.user_email }
    (AuthManager.refresh_token cache { t with refresh_token := none } now (some data)
       = ⟨RefreshOutcome.raised "No refresh token available", cache, false⟩) ∧
    (AuthManager.refresh_token cache { t with refresh_token := none } now none
       = ⟨RefreshOutcome.raised "No refresh token available", cache, false⟩) ∧
    (AuthManager.refresh_token cache { t with refresh_token := some rt } now (some data)
       = ⟨RefreshOutcome.returned nt, cacheInsert cache (t.tenant_id, t.user_email) nt, true⟩) ∧
    cacheLookup (cacheInsert cache (t.tenant_id, t.user_email) nt) (t.tenant_id, t.user_email)
      = some nt ∧
    (AuthManager.refresh_token cache { t with refresh_token := some rt } now none
       = ⟨RefreshOutcome.returned { t with refresh_token := some rt }, cache, true⟩) := by
  intro nt
  refine ⟨?_, ?_, ?_, ?_, ?_⟩
  · simp [AuthManager.refresh_token, pyTruthyStr]
  · simp [AuthManager.refresh_token, pyTruthyStr]
  · simp [AuthManager.refresh_token, pyTruthyStr, hrt]
  · exact cacheLookup_cacheInsert cache (t.tenant_id, t.user_email) nt
  · simp [AuthManager.refresh_token, pyTruthyStr, hrt]
/-- C5 witness: the policy applied at a concrete token and refresh exchange. -/
theorem C5_witness :
    let nt : AuthToken :=
      { access_token := (AuthResponse.mk (some ("new")) none (some 60)).access_token.getD ""
        refresh_token :=
          match (AuthResponse.mk (some ("new")) none (some 60)).refresh_token with
          | some s => some s
          | none => some ("r0")
        expires_at := 100 + (AuthResponse.mk (some ("new")) none (some 60)).expires_in.getD 3600
        tenant_id := (AuthToken.mk ("old") (some ("r0")) 50 ("acme") ("a")).tenant_id
        user_email := (AuthToken.mk ("old") (some ("r0")) 50 ("acme") ("a")).user_email }
    (AuthManager.refresh_token [] { AuthToken.mk ("old") (some ("r0")) 50 ("acme") ("a") with refresh_token := none } 100
        (some (AuthResponse.mk (some ("new")) none (some 60)))
       = ⟨RefreshOutcome.raised "No refresh token available", [], false⟩) ∧
    (AuthManager.refresh_token [] { AuthToken.mk ("old") (some ("r0")) 50 ("acme") ("a") with refresh_token := none } 100 none
       = ⟨RefreshOutcome.raised "No refresh token available", [], false⟩) ∧
    (AuthManager.refresh_token [] { AuthToken.mk ("old") (some ("r0")) 50 ("acme") ("a") with refresh_token := some ("r0") } 100
        (some (AuthResponse.mk (some ("new")) none (some 60)))
       = ⟨RefreshOutcome.returned nt,
          cacheInsert [] ((AuthToken.mk ("old") (some ("r0")) 50 ("acme") ("a")).tenant_id,
            (AuthToken.mk ("old") (some ("r0")) 50 ("acme") ("a")).user_email) nt, true⟩) ∧
    cacheLookup (cacheInsert [] ((AuthToken.mk ("old") (some ("r0")) 50 ("acme") ("a")).tenant_id,
        (AuthToken.mk ("old") (some ("r0")) 50 ("acme") ("a")).user_email) nt)
        ((AuthToken.mk ("old") (some ("r0")) 50 ("acme") ("a")).tenant_id,
         (AuthToken.mk ("old") (some ("r0")) 50 ("acme") ("a")).user_email)
      = some nt ∧
    (AuthManager.refresh_token [] { AuthToken.mk ("old") (some ("r0")) 50 ("acme") ("a") with refresh_token := some ("r0") } 100 none
       = ⟨RefreshOutcome.returned { AuthToken.mk ("old") (some ("r0")) 50 ("acme") ("a") with refresh_token := some ("r0") }, [], true⟩) :=
  C5_refresh_token_policy [] (AuthToken.mk ("old") (some ("r0")) 50 ("acme") ("a")) 100 ("r0")
    (by decide) (AuthResponse.mk (some ("new")) none (some 60))
/-- C6: with force_refresh = true, get_token always fetches (whatever the
cache holds), returns exactly what _request_token produced, and the cache
entry for (tenant_id, email) afterwards is that newly fetched token. -/
theorem C6_force_refresh_always_fetches (cache : TokenCache)
    (tenant_id email password : String) (now : Int) (net : Option AuthResponse) :
    (AuthManager.get_token cache tenant_id email password now net true).fetched = true ∧
    (AuthManager.get_token cache tenant_id email password now net true).token
      = AuthManager.request_token tenant_id email now net ∧
    cacheLookup (AuthManager.get_token cache tenant_id email password now net true).cache
        (tenant_id, email)
      = some (AuthManager.get_token cache tenant_id email password now net true).token := by
  refine ⟨by simp [AuthManager.get_token], by simp [AuthManager.get_token], ?_⟩
  exact get_token_cache_lookup cache tenant_id email password now net true
/-- C7: clear_cache empties the token cache, and any get_token call against
the cleared cache fetches (no cached token can be reused). -/
theorem C7_clear_cache_then_fetch (cache : TokenCache)
    (tenant_id email password : String) (now : Int) (net : Option AuthResponse)
    (force_refresh : Bool) :
    AuthManager.clear_cache cache = [] ∧
    (AuthManager.get_token (AuthManager.clear_cache cache) tenant_id email password
        now net force_refresh).fetched = true := by
  refine ⟨rfl, ?_⟩
  unfold AuthManager.clear_cache AuthManager.get_token
  by_cases hf : force_refresh <;> simp [hf, cacheLookup]
/-- C8: the isolation check holds exactly when no rendered project-card text
contains the excluded tenant marker as a substring (substring spelled out as
a decomposition text = l ++ marker ++ r of the character list). -/
theorem C8_verify_no_cross_tenant_data_iff (cards : List (Option String))
    (excluded_tenant : String) :
    DashboardPage.verify_no_cross_tenant_data cards excluded_tenant = true ↔
      ∀ card ∈ cards, ¬ ∃ l r, (card.getD "").data = l ++ excluded_tenant.data ++ r := by
  induction cards with
  | nil => simp [DashboardPage.verify_no_cross_tenant_data]
  | cons card rest ih =>
    rw [show DashboardPage.verify_no_cross_tenant_data (card :: rest) excluded_tenant
        = (if containsSub excluded_tenant.data ((card.getD "").data) then false
           else DashboardPage.verify_no_cross_tenant_data rest excluded_tenant) from rfl]
    by_cases hc : containsSub excluded_tenant.data (card.getD "").data = true
    · rw [if_pos hc]
      simp only [Bool.false_eq_true, false_iff]
      intro hall
      exact hall card (List.mem_cons_self card rest)
        ((containsSub_iff excluded_tenant.data (card.getD "").data).mp hc)
    · rw [if_neg hc, ih]
      constructor
      · intro hrest card2 hmem
        rcases List.mem_cons.mp hmem with rfl | hmem2
        · intro hex
          exact hc ((containsSub_iff excluded_tenant.data (card2.getD "").data).mpr hex)
        · exact hrest card2 hmem2
      · intro hall card2 hmem
        exact hall card2 (List.mem_cons_of_mem card hmem)
/-- C9: set_token rewrites only the Authorization header (to Bearer token),
leaving X-Tenant-ID, Content-Type, tenant_id and base_url as they were;
set_tenant rewrites only tenant_id and the X-Tenant-ID header, leaving
Authorization, Content-Type and base_url as they were. -/
theorem C9_set_token_set_tenant_frame (c : APIClient) (token tenant_id : String) :
    ((c.set_token token).headers.authorization = "Bearer " ++ token) ∧
    ((c.set_token token).headers.x_tenant_id = c.headers.x_tenant_id) ∧
    ((c.set_token token).headers.content_type = c.headers.content_type) ∧
    ((c.set_token token).tenant_id = c.tenant_id) ∧
    ((c.set_token token).base_url = c.base_url) ∧
    ((c.set_tenant tenant_id).tenant_id = tenant_id) ∧
    ((c.set_tenant tenant_id).headers.x_tenant_id = tenant_id) ∧
    ((c.set_tenant tenant_id).headers.authorization = c.headers.authorization) ∧
    ((c.set_tenant tenant_id).headers.content_type = c.headers.content_type) ∧
    ((c.set_tenant tenant_id).base_url = c.base_url) :=
  ⟨rfl, rfl, rfl, rfl, rfl, rfl, rfl, rfl, rfl, rfl⟩
/-- C10: when the refresh exchange succeeds but the response body has no
refresh_token field, the new token keeps the old refresh_token value
(data.get("refresh_token", token.refresh_token)), so a refreshable token
stays refreshable. -/
theorem C10_refresh_without_new_refresh_field (cache : TokenCache) (t : AuthToken)
    (now : Int) (rt : String) (hrt : ¬ rt = "") (ac : Option String) (ei : Option Int) :
    (AuthManager.refresh_token cache { t with refresh_token := some rt } now
        (some { access_token := ac, refresh_token := none, expires_in := ei })).result
      = RefreshOutcome.returned
          { access_token := ac.getD ""
            refresh_token := some rt
            expires_at := now + ei.getD 3600
            tenant_id := t.tenant_id
            user_email := t.user_email } := by
  simp [AuthManager.refresh_token, pyTruthyStr, hrt]
/-- C10 witness: the carry-forward applied at a concrete token and response. -/
theorem C10_witness :
    (AuthManager.refresh_token [] { AuthToken.mk ("old") (some ("keepme")) 50 ("acme") ("a") with refresh_token := some ("keepme") } 100
        (some { access_token := some ("new2"), refresh_token := none, expires_in := some 60 })).result
      = RefreshOutcome.returned
          { access_token := (some ("new2")).getD ""
            refresh_token := some ("keepme")
            expires_at := 100 + (some (60 : Int)).getD 3600
            tenant_id := (AuthToken.mk ("old") (some ("keepme")) 50 ("acme") ("a")).tenant_id
            user_email := (AuthToken.mk ("old") (some ("keepme")) 50 ("acme") ("a")).user_email } :=
  C10_refresh_without_new_refresh_field [] (AuthToken.mk ("old") (some ("keepme")) 50 ("acme") ("a"))
    100 ("keepme") (by decide) (some ("new2")) (some 60)
